import Mathlib

/- Shallow embedding of the search-deduplication core of the resilient_async_cts
repository: the orchestrator decision logic of async_cts.py, the relational
persistence helpers of util/db.py and the document-store persistence helpers of
util/mongo.py. Stateful Python is modelled by explicit data passing: the result
of an awaited query is an input list of rows, a raised exception is an
Except.error value, and side effects (task creation, file unlink calls) are
recorded in explicit effect records. Details no theorem depends on (timestamps,
JSON serialization, the aiohttp transport, connection configuration) are elided
and noted at each definition. -/

/-- Python truthiness of an optional string parameter: None and the empty
string are falsy, any other string is truthy. Used to model conditions such as
`not search_id` in db.py line 58 and `if (search_id)` in mongo.py line 60. -/
def truthy (o : Option String) : Bool := !(o.getD "" == "")

/-- The single-quote character (code point 39). It appears in the SQL text that
db.py builds by f-string interpolation. -/
def squoteChar : Char := Char.ofNat 39

/-- The single-quote character as a one-character string. -/
def squote : String := String.singleton squoteChar

/-- A row of the relational active-searches table, as created by db.py line 215
(columns search_id, artifact_type, artifact_value). The serial primary key is
modelled by its decimal string form, matching how ids flow through the
orchestrator as strings. -/
structure ActiveRow where
  search_id : String
  artifact_type : String
  artifact_value : String
deriving Repr, DecidableEq, Inhabited

/-- A row of the relational results table, as created by db.py line 217
(columns search_id, artifact_type, artifact_value, date_found, hit). The
timestamp is modelled as a Nat; the hit payload is an uninterpreted string. -/
structure ResultRow where
  search_id : String
  artifact_type : String
  artifact_value : String
  hit : String
  date_found : Nat
deriving Repr, DecidableEq, Inhabited

/-- A document of the Mongo active-searches collection (mongo.py lines 37-42):
only artifact_type and artifact_value are stored; the _id ObjectId assigned by
the store is modelled by its string form. -/
structure MongoActiveDoc where
  mongo_id : String
  artifact_type : String
  artifact_value : String
deriving Repr, DecidableEq, Inhabited

/-- A document of the Mongo results collection (mongo.py lines 156-161):
search_id, artifact_type, artifact_value and the hit payload, plus the
store-assigned _id modelled as a string. -/
structure MongoResultDoc where
  mongo_id : String
  search_id : String
  artifact_type : String
  artifact_value : String
  hit : String
deriving Repr, DecidableEq, Inhabited

/-- Exceptions raised by db.py: the bare `Exception(...)` of lines 60 and 112
(the invalid-query rejection) and MultipleTablesForCTS of line 201. -/
inductive PgErr where
  | invalidQuery
  | multipleTablesForCTS
deriving Repr, DecidableEq

/-- Exceptions raised by mongo.py: ValueError of lines 82 and 142 (the
invalid-query rejection), ActiveSearchNotFound of line 104 and
DeletedMultipleActiveSearches of line 102. InsertException is elided: no
claim concerns it. -/
inductive MongoErr where
  | invalidQuery
  | activeSearchNotFound (search_id : String)
  | deletedMultipleActiveSearches (search_id : String)
deriving Repr, DecidableEq

/-- Python-level exceptions inside the orchestrator: TypeError from a call
with the wrong number of positional arguments, and an arbitrary exception
carried by a failed searcher future. -/
inductive PyErr where
  | typeError
  | exception (msg : String)
deriving Repr, DecidableEq

/- ===================== util/db.py (relational backend) ===================== -/

/-- Lifecycle events of one database call, used to model the decorator
handle_db_connection of db.py lines 8-29. -/
inductive DbEvent where
  | connect
  | query (sql : String)
  | close
deriving Repr, DecidableEq

/-- Embedding of handle_db_connection (db.py lines 8-29). The wrapped body
`func` receives the freshly opened connection (modelled as Unit, since the
connection parameters come from configuration) and yields its own event trace
together with either a normal result or a raised exception, as an Except
value. The decorator opens the connection (asyncpg.connect, line 18), runs the
body inside `try` (line 25), and the `finally` of lines 26-27 closes the
connection in both outcomes before the pair is returned (line 28); a raised
exception is passed through unchanged. -/
def handle_db_connection {E A : Type} (func : Unit → List DbEvent × Except E A) :
    List DbEvent × Except E A :=
  (DbEvent.connect :: ((func ()).1 ++ [DbEvent.close]), (func ()).2)

/-- Embedding of DB.search_for_active_search (db.py lines 42-71). The guard of
line 58 mirrors `not search_id and (not artifact_type or not artifact_value)`
under Python truthiness; line 60 raises a bare Exception, modelled as
PgErr.invalidQuery. Row matching is modelled as exact string equality, which
is the semantics of the generated SQL whenever the interpolated values contain
no quote character; the raw interpolated SQL text itself is embedded
separately below (active_search_query_by_search_id and friends). -/
def DB.search_for_active_search (table : List ActiveRow)
    (search_id artifact_type artifact_value : Option String) :
    Except PgErr (List ActiveRow) :=
  if !truthy search_id && (!truthy artifact_type || !truthy artifact_value) then
    .error .invalidQuery
  else if truthy search_id then
    .ok (table.filter (fun r => r.search_id == search_id.getD ""))
  else
    .ok (table.filter (fun r =>
      r.artifact_type == artifact_type.getD "" && r.artifact_value == artifact_value.getD ""))

/-- Embedding of DB.search_for_results (db.py lines 94-123): same validation
guard (line 110-112) and the same two query shapes (lines 118 and 121) over
the results table. -/
def DB.search_for_results (table : List ResultRow)
    (search_id artifact_type artifact_value : Option String) :
    Except PgErr (List ResultRow) :=
  if !truthy search_id && (!truthy artifact_type || !truthy artifact_value) then
    .error .invalidQuery
  else if truthy search_id then
    .ok (table.filter (fun r => r.search_id == search_id.getD ""))
  else
    .ok (table.filter (fun r =>
      r.artifact_type == artifact_type.getD "" && r.artifact_value == artifact_value.getD ""))

/-- Embedding of DB.remove_active_search (db.py lines 125-141): it executes
DELETE ... WHERE search_id = $1 and returns the command status string that
asyncpg produces (for example "DELETE 0"); there is no check of the affected
row count and no exception path. The new table contents are returned together
with the status. -/
def DB.remove_active_search (table : List ActiveRow) (search_id : String) :
    Except PgErr (List ActiveRow × String) :=
  .ok (table.filter (fun r => !(r.search_id == search_id)),
       "DELETE " ++ toString ((table.filter (fun r => r.search_id == search_id)).length))

/-- Embedding of DB.add_active_search (db.py lines 143-163): the function has
exactly two data parameters after the injected connection, inserts a row and
returns the auto-incremented serial primary key (RETURNING search_id, line
160), modelled by its decimal string form with the next serial value supplied
explicitly. -/
def DB.add_active_search (table : List ActiveRow) (next_serial : Nat)
    (artifact_type artifact_value : String) : List ActiveRow × String :=
  (table ++ [⟨toString next_serial, artifact_type, artifact_value⟩], toString next_serial)

/-- Embedding of DB.cts_tables_exist (db.py lines 187-204). The catalog input
is the list of table names in schema public with table_type BASE TABLE, which
the SQL of line 197-199 consults; the IN clause keeps only the two CTS table
names. Line 200-201 raises MultipleTablesForCTS when more than two rows come
back, and line 204 returns whether exactly two came back. -/
def cts_tables_exist (catalog : List String) (cts_id : String) : Except PgErr Bool :=
  if (catalog.filter (fun t =>
      t == cts_id ++ "_active_searches" || t == cts_id ++ "_results")).length > 2 then
    .error .multipleTablesForCTS
  else
    .ok ((catalog.filter (fun t =>
      t == cts_id ++ "_active_searches" || t == cts_id ++ "_results")).length == 2)

/- The raw SQL text that db.py builds with f-strings for the lookup queries.
These definitions mirror the f-string templates character for character; the
single quote is written squote because this development spells that character via
its code point. -/

/-- SQL text of db.py line 66: lookup of an active search by search_id. -/
def active_search_query_by_search_id (cts_id search_id : String) : String :=
  "SELECT * FROM " ++ cts_id ++ "_active_searches WHERE search_id = " ++
    squote ++ search_id ++ squote ++ ";"

/-- SQL text of db.py line 69: lookup of an active search by fingerprint. -/
def active_search_query_by_artifact (cts_id artifact_type artifact_value : String) : String :=
  "SELECT * FROM " ++ cts_id ++ "_active_searches WHERE artifact_type = " ++
    squote ++ artifact_type ++ squote ++ " AND artifact_value = " ++
    squote ++ artifact_value ++ squote ++ ";"

/-- Characters of a list strictly after the first single quote. -/
def charsAfterFirstQuote : List Char → List Char
  | [] => []
  | c :: cs => if c = squoteChar then cs else charsAfterFirstQuote cs

/-- Characters of a list up to (excluding) the first single quote. -/
def charsUntilQuote : List Char → List Char
  | [] => []
  | c :: cs => if c = squoteChar then [] else c :: charsUntilQuote cs

/-- Minimal model of the external SQL engine tokenizer, only as far as C8
needs it: the first single-quoted literal of a query text is the run of
characters between the first quote and the quote that follows it. The engine
is an external collaborator of the repository; nothing beyond this
tokenization is modelled. -/
def first_sql_literal (q : String) : String :=
  ⟨charsUntilQuote (charsAfterFirstQuote q.data)⟩

/-- Model of the external relational engine executing the by-id lookup text of
db.py line 66: the engine sees only the final SQL string, so it matches rows
whose search_id column equals whatever the first quoted literal of that string
turned out to be. -/
def sql_by_id_result_set (table : List ActiveRow) (q : String) : List ActiveRow :=
  table.filter (fun r => r.search_id == first_sql_literal q)

/- ===================== util/mongo.py (document backend) ===================== -/

/-- Embedding of Mongo.search_for_active_search (mongo.py lines 49-84): with a
truthy search_id, find_one on _id (the ObjectId is modelled by its string
form; parsing of malformed id strings is elided); otherwise, with a truthy
type and value, find_one on the conjunction of the two equality filters (the
source lists the value filter first); otherwise ValueError (line 82),
modelled as MongoErr.invalidQuery. find_one yields the first matching
document or None, modelled as Option. -/
def Mongo.search_for_active_search (coll : List MongoActiveDoc)
    (search_id artifact_type artifact_value : Option String) :
    Except MongoErr (Option MongoActiveDoc) :=
  if truthy search_id then
    .ok ((coll.filter (fun d => d.mongo_id == search_id.getD "")).head?)
  else if truthy artifact_type && truthy artifact_value then
    .ok ((coll.filter (fun d =>
      d.artifact_value == artifact_value.getD "" && d.artifact_type == artifact_type.getD "")).head?)
  else
    .error .invalidQuery

/-- Embedding of Mongo.search_for_results (mongo.py lines 106-144): same
structure over the results collection; the by-id branch matches the stored
search_id field as a plain string (source comment at lines 118-120), and the
invalid-query rejection is the ValueError of line 142. find_one again yields
at most one document. -/
def Mongo.search_for_results (coll : List MongoResultDoc)
    (search_id artifact_type artifact_value : Option String) :
    Except MongoErr (Option MongoResultDoc) :=
  if truthy search_id then
    .ok ((coll.filter (fun d => d.search_id == search_id.getD "")).head?)
  else if truthy artifact_type && truthy artifact_value then
    .ok ((coll.filter (fun d =>
      d.artifact_value == artifact_value.getD "" && d.artifact_type == artifact_type.getD "")).head?)
  else
    .error .invalidQuery

/-- Embedding of Mongo.remove_active_search (mongo.py lines 86-104):
delete_many on _id, then the deleted count is checked: exactly one deletion
returns True (with the shrunken collection), more than one raises
DeletedMultipleActiveSearches, zero raises ActiveSearchNotFound. -/
def Mongo.remove_active_search (coll : List MongoActiveDoc) (search_id : String) :
    Except MongoErr (List MongoActiveDoc × Bool) :=
  if (coll.filter (fun d => d.mongo_id == search_id)).length == 1 then
    .ok (coll.filter (fun d => !(d.mongo_id == search_id)), true)
  else if (coll.filter (fun d => d.mongo_id == search_id)).length > 1 then
    .error (.deletedMultipleActiveSearches search_id)
  else
    .error (.activeSearchNotFound search_id)

/- ===================== async_cts.py (orchestrator) ===================== -/

/-- The temp-file descriptor built by AsyncCTS.parse_file (async_cts.py lines
175-178): the path of the NamedTemporaryFile and the Content-Transfer-Encoding
header. -/
structure FilePayload where
  path : String
  content_transfer_encoding : Option String
deriving Repr, DecidableEq, Inhabited

/-- The responses the scan handler can produce (async_cts.py lines 90, 94, 98,
and the implicit None return on fall-through). Payload strings are carried
verbatim; the json round trip of line 98 is elided. -/
inductive ScanResponse where
  | launching
  | activeSearch (search_id : String)
  | foundHit (hit : String)
  | noResponse
deriving Repr, DecidableEq

/-- Side effects of one run of the scan handler: whether the searcher task was
created (line 71), the search_id captured by the done callback (line 85), the
positional arguments handed to db.add_active_search (line 88), and the paths
passed to os.unlink (line 103). -/
structure ScanEffects where
  searcher_launched : Bool
  callback_search_id : Option String
  add_active_search_args : Option (List String)
  unlinked : List String
deriving Repr, DecidableEq

/-- The empty effect record. -/
def noEffects : ScanEffects := ⟨false, none, none, []⟩

/-- Python positional-call semantics of `db.add_active_search(a1, ..., an)`:
the decorator forwards (self, conn, a1, ..., an) to the function of db.py
lines 143-163, whose signature binds exactly two data parameters after conn,
so any other arity raises TypeError before the body runs; a well-formed call
runs the insert and returns the new serial id. -/
def call_add_active_search (table : List ActiveRow) (next_serial : Nat)
    (args : List String) : Except PyErr (List ActiveRow × String) :=
  match args with
  | [t, v] => .ok (DB.add_active_search table next_serial t v)
  | _ => .error .typeError

/-- Embedding of AsyncCTS.scanArtifactHandler after its two store queries
(async_cts.py lines 63-103). Inputs: the fingerprint fields, the optional
file payload, the uuid4 value the handler would draw at line 80, the two query
results past_results and active_searches gathered at lines 63-66, and the
current active table plus next serial for the attempted insert. Branches, in
source order: line 68 starts a new investigation when both query results are
empty (searcher task at line 71, uuid at line 80, done callback at line 85,
then the three-argument call to db.add_active_search at line 88 - its
exception propagates out of the handler); line 92 answers with the id of the
single active search; line 96 answers with the single stored hit; otherwise
execution falls through to line 101, which unlinks the temp file when one was
sent, and the handler returns None. -/
def scanArtifactHandler (artifact_type artifact_value : String)
    (file_payload : Option FilePayload) (fresh_uuid : String)
    (past_results : List ResultRow) (active_searches : List ActiveRow)
    (active_table : List ActiveRow) (next_serial : Nat) :
    Except PyErr ScanResponse × ScanEffects :=
  if past_results.length == 0 && active_searches.length == 0 then
    match call_add_active_search active_table next_serial
        [fresh_uuid, artifact_type, artifact_value] with
    | .error e =>
        (.error e, ⟨true, some fresh_uuid, some [fresh_uuid, artifact_type, artifact_value], []⟩)
    | .ok _ =>
        (.ok .launching, ⟨true, some fresh_uuid, some [fresh_uuid, artifact_type, artifact_value], []⟩)
  else if active_searches.length == 1 then
    (.ok (.activeSearch active_searches.headI.search_id), noEffects)
  else if past_results.length == 1 then
    (.ok (.foundHit past_results.headI.hit), noEffects)
  else
    match file_payload with
    | some fp => (.ok .noResponse, ⟨false, none, none, [fp.path]⟩)
    | none => (.ok .noResponse, noEffects)

/-- Side effects of one run of the completion callback: the search_id handed
to the scheduled remove_active_search task (line 209), the arguments handed to
the scheduled store_search_results task (line 210) when that point is reached,
and the paths passed to os.unlink (line 214). -/
structure ReactionEffects where
  remove_task_arg : Option String
  store_task_args : Option (String × String × String × String)
  unlinked : List String
deriving Repr, DecidableEq

/-- Embedding of search_complete_handler (async_cts.py lines 191-214). The
future input carries the searcher outcome: a payload string on success, or the
exception the searcher raised. Line 209 schedules the removal task. Line 210
evaluates future.result() while building the store task: when the searcher
failed this re-raises that exception, so the store task is never created, the
unlink of lines 212-214 is never reached, and the exception leaves the
callback. On success the store task is created (json.dumps elided, the payload
string is carried as is) and the temp file, when present, is unlinked. -/
def search_complete_handler (future : Except PyErr String)
    (search_id artifact_type artifact_value : String)
    (file_payload : Option FilePayload) : Except PyErr Unit × ReactionEffects :=
  match future with
  | .error e => (.error e, ⟨some search_id, none, []⟩)
  | .ok hit =>
    match file_payload with
    | some fp =>
        (.ok (), ⟨some search_id, some (search_id, artifact_type, artifact_value, hit), [fp.path]⟩)
    | none =>
        (.ok (), ⟨some search_id, some (search_id, artifact_type, artifact_value, hit), []⟩)

/-- A hostile lookup value containing quote characters, spelling x OR 1=1 with
quotes around the second operand pair. -/
def hostile_search_id : String :=
  "x" ++ squote ++ " OR " ++ squote ++ "1" ++ squote ++ "=" ++ squote ++ "1"

/- ===================== theorems ===================== -/

/-- Helper: appending the two distinct table-name suffixes to the same CTS id
yields distinct table names. -/
theorem suffix_tables_ne (s : String) : s ++ "_active_searches" ≠ s ++ "_results" := by
  intro h
  have hl : (s ++ "_active_searches").length = (s ++ "_results").length :=
    congrArg String.length h
  rw [String.length_append, String.length_append] at hl
  have h16 : ("_active_searches" : String).length = 16 := rfl
  have h8 : ("_results" : String).length = 8 := rfl
  rw [h16, h8] at hl
  omega

/-- Helper: the length of a filter keeping the elements equal to a or to b is
the sum of the two occurrence counts, when a and b differ. -/
theorem count_filter_pair (a b : String) (hab : a ≠ b) (l : List String) :
    (l.filter (fun t => t == a || t == b)).length = l.count a + l.count b := by
  induction l with
  | nil => simp
  | cons x xs ih =>
    by_cases hxa : x = a
    · subst hxa
      simp [List.filter_cons, List.count_cons, ih, hab]
      omega
    · by_cases hxb : x = b
      · subst hxb
        simp [List.filter_cons, List.count_cons, ih, hxa]
        omega
      · simp [List.filter_cons, List.count_cons, ih, hxa, hxb]

/-- Helper: in a list without duplicates every element occurs once or not at
all. -/
theorem nodup_count_mem (l : List String) (hl : l.Nodup) (a : String) :
    l.count a = if a ∈ l then 1 else 0 := by
  by_cases hm : a ∈ l
  · rw [if_pos hm]; exact List.count_eq_one_of_mem hl hm
  · rw [if_neg hm]; exact List.count_eq_zero_of_not_mem hm

/-- Claim C10: under the catalog invariant that base-table names within the
public schema are unique, cts_tables_exist never reaches its
MultipleTablesForCTS branch (the IN clause admits at most the two CTS table
names) and returns True exactly when both the active-searches table and the
results table exist. -/
theorem cts_tables_exist_characterization (catalog : List String) (cts_id : String)
    (hnodup : catalog.Nodup) :
    cts_tables_exist catalog cts_id =
      .ok (decide ((cts_id ++ "_active_searches") ∈ catalog) &&
           decide ((cts_id ++ "_results") ∈ catalog)) := by
  have hab := suffix_tables_ne cts_id
  have hlen := count_filter_pair (cts_id ++ "_active_searches") (cts_id ++ "_results") hab catalog
  have ha := nodup_count_mem catalog hnodup (cts_id ++ "_active_searches")
  have hb := nodup_count_mem catalog hnodup (cts_id ++ "_results")
  unfold cts_tables_exist
  rw [hlen, ha, hb]
  by_cases hma : (cts_id ++ "_active_searches") ∈ catalog <;>
    by_cases hmb : (cts_id ++ "_results") ∈ catalog <;>
      simp [hma, hmb]

/-- Claim C10 witness: a concrete catalog holding both CTS tables plus an
unrelated table. -/
theorem cts_tables_exist_characterization_witness :
    cts_tables_exist ["foo", "cts_results", "cts_active_searches"] "cts" = .ok true := by
  rw [cts_tables_exist_characterization ["foo", "cts_results", "cts_active_searches"] "cts"
    (by decide)]
  rfl

/-- Claim C9: for every operation wrapped by handle_db_connection, the
connection opened for that call is closed before the call completes - the
event trace ends with the close event, and holds exactly one connect and one
close when the wrapped body itself performs neither - and the body outcome,
normal result or raised exception, reaches the caller unchanged. -/
theorem handle_db_connection_closes_and_propagates (E A : Type)
    (func : Unit → List DbEvent × Except E A)
    (hconn : DbEvent.connect ∉ (func ()).1) (hclose : DbEvent.close ∉ (func ()).1) :
    (handle_db_connection func).1.count DbEvent.connect = 1 ∧
    (handle_db_connection func).1.count DbEvent.close = 1 ∧
    (handle_db_connection func).1.getLast? = some DbEvent.close ∧
    (handle_db_connection func).2 = (func ()).2 := by
  unfold handle_db_connection
  refine ⟨?_, ?_, ?_, rfl⟩
  · simp [List.count_cons, List.count_append, List.count_eq_zero.mpr hconn]
  · simp [List.count_cons, List.count_append, List.count_eq_zero.mpr hclose]
  · rw [show DbEvent.connect :: ((func ()).1 ++ [DbEvent.close]) =
      (DbEvent.connect :: (func ()).1) ++ [DbEvent.close] from rfl]
    exact List.getLast?_concat _

/-- Claim C9 witness: a body that performs one query and raises. -/
theorem handle_db_connection_closes_and_propagates_witness :
    (handle_db_connection (fun _ =>
      ([DbEvent.query "SELECT 1"], (Except.error "boom" : Except String Nat)))).1.getLast? =
      some DbEvent.close ∧
    (handle_db_connection (fun _ =>
      ([DbEvent.query "SELECT 1"], (Except.error "boom" : Except String Nat)))).2 =
      Except.error "boom" := by
  have h := handle_db_connection_closes_and_propagates String Nat
    (fun _ => ([DbEvent.query "SELECT 1"], Except.error "boom"))
    (by decide) (by decide)
  exact ⟨h.2.2.1, h.2.2.2⟩

/-- Claim C1 counterexample: with one stored result and one active search for
the same fingerprint, the handler answers with the in-flight search id, not
with the stored hit - the join-in-flight branch is checked before the
stored-result branch in the code. -/
theorem scan_prefers_active_over_stored_cex :
    (scanArtifactHandler "ip" "1.2.3.4" none "u" [⟨"s1", "ip", "1.2.3.4", "hit-one", 0⟩]
      [⟨"a1", "ip", "1.2.3.4"⟩] [] 0).1 = .ok (.activeSearch "a1") ∧
    (Except.ok (ScanResponse.activeSearch "a1") : Except PyErr ScanResponse) ≠
      .ok (.foundHit "hit-one") := by
  refine ⟨rfl, ?_⟩
  intro h
  injection h with h2
  exact ScanResponse.noConfusion h2

/-- Claim C1 amended: the code gives the join-in-flight row priority. Whenever
exactly one active search exists the handler answers with its id, whatever the
stored results; the first stored result is answered only when exactly one
result row exists and the active count is not one; and with two or more stored
results (and an active count other than one) no decision response is produced
at all. -/
theorem scan_decision_actual_priority (artifact_type artifact_value : String)
    (file_payload : Option FilePayload) (fresh_uuid : String)
    (past_results : List ResultRow) (active_searches : List ActiveRow)
    (active_table : List ActiveRow) (next_serial : Nat) :
    (active_searches.length = 1 →
      (scanArtifactHandler artifact_type artifact_value file_payload fresh_uuid
        past_results active_searches active_table next_serial).1 =
        .ok (.activeSearch active_searches.headI.search_id)) ∧
    (past_results.length = 1 → active_searches.length ≠ 1 →
      (scanArtifactHandler artifact_type artifact_value file_payload fresh_uuid
        past_results active_searches active_table next_serial).1 =
        .ok (.foundHit past_results.headI.hit)) ∧
    (2 ≤ past_results.length → active_searches.length ≠ 1 →
      (scanArtifactHandler artifact_type artifact_value file_payload fresh_uuid
        past_results active_searches active_table next_serial).1 =
        .ok .noResponse) := by
  unfold scanArtifactHandler
  refine ⟨?_, ?_, ?_⟩
  · intro h1
    simp [h1]
  · intro h1 h2
    simp [h1, h2]
  · intro h1 h2
    have h0 : past_results.length ≠ 0 := by omega
    have hne1 : past_results.length ≠ 1 := by omega
    simp [h0, h1, h2, hne1]
    cases file_payload <;> simp

/-- Claim C1 amended, witness: one active search, no stored result. -/
theorem scan_decision_actual_priority_witness :
    (scanArtifactHandler "ip" "9.9.9.9" none "u" [] [⟨"a7", "ip", "9.9.9.9"⟩] [] 0).1 =
      .ok (.activeSearch "a7") := by
  exact (scan_decision_actual_priority "ip" "9.9.9.9" none "u" [] [⟨"a7", "ip", "9.9.9.9"⟩]
    [] 0).1 rfl

/-- Claim C2: on the start-new-investigation path the code draws its own uuid4
as the search id, wires it into the completion callback, and then calls
db.add_active_search with three positional arguments; the function of db.py
lines 143-163 binds exactly two after the connection, so the call raises
TypeError - after the searcher task was already launched - and the
store-assigned serial identifier that the insert would return (here "7") is
never obtained and differs from the uuid the handler used. -/
theorem scan_new_search_type_error :
    scanArtifactHandler "ip" "1.2.3.4" none "u-1" [] [] [] 7 =
      (.error .typeError, ⟨true, some "u-1", some ["u-1", "ip", "1.2.3.4"], []⟩) ∧
    (DB.add_active_search [] 7 "ip" "1.2.3.4").2 ≠ "u-1" := by
  refine ⟨rfl, by decide⟩

/-- Claim C3: when the searcher future failed, the completion callback
schedules the removal of the active-search marker (line 209) but then
future.result() re-raises the searcher exception while the store task is being
built (line 210): no result record - error-shaped or otherwise - is written,
the temp file is not unlinked even though one was supplied, and the exception
propagates out of the callback. -/
theorem search_complete_failure_behavior :
    search_complete_handler (.error (.exception "searcher blew up")) "s1" "ip" "1.2.3.4"
      (some ⟨"/tmp/artifact-upload", none⟩) =
      (.error (.exception "searcher blew up"), ⟨some "s1", none, []⟩) := rfl

/-- Claim C4: on the stored-result path a request carrying a file gets the
stored hit back while the temporary file is never unlinked - the branch at
line 96-98 returns before the unlink of lines 101-103, so the effect record
shows an empty unlink list. -/
theorem scan_stored_result_file_leak :
    scanArtifactHandler "file.name" "invoice.pdf" (some ⟨"/tmp/artifact-upload-2", none⟩)
      "u-2" [⟨"s9", "file.name", "invoice.pdf", "hit-nine", 0⟩] [] [] 0 =
      (.ok (.foundHit "hit-nine"), noEffects) := rfl

/-- Claim C5 counterexample: the relational remove_active_search with an id
matching zero rows returns the asyncpg status "DELETE 0" and succeeds; it does
not raise ActiveSearchNotFound. -/
theorem db_remove_zero_rows_silently_succeeds :
    DB.remove_active_search [⟨"7", "ip", "1.2.3.4"⟩] "42" =
      .ok ([⟨"7", "ip", "1.2.3.4"⟩], "DELETE 0") := rfl

/-- Claim C5 amended: only the document backend enforces the affected-count
checks - zero deletions raise ActiveSearchNotFound and more than one raises
DeletedMultipleActiveSearches - while the relational backend always succeeds,
whatever the number of affected rows. -/
theorem remove_active_search_actual_semantics (table : List ActiveRow)
    (coll : List MongoActiveDoc) (sid : String) :
    (∃ out, DB.remove_active_search table sid = .ok out) ∧
    ((coll.filter (fun d => d.mongo_id == sid)).length = 0 →
      Mongo.remove_active_search coll sid = .error (.activeSearchNotFound sid)) ∧
    (1 < (coll.filter (fun d => d.mongo_id == sid)).length →
      Mongo.remove_active_search coll sid = .error (.deletedMultipleActiveSearches sid)) := by
  refine ⟨⟨_, rfl⟩, ?_, ?_⟩
  · intro h
    unfold Mongo.remove_active_search
    simp [h]
  · intro h
    have hne1 : (coll.filter (fun d => d.mongo_id == sid)).length ≠ 1 := by omega
    unfold Mongo.remove_active_search
    simp [hne1, h]

/-- Claim C5 amended, witness: an empty collection and an id matching nothing. -/
theorem remove_active_search_actual_semantics_witness :
    Mongo.remove_active_search [] "42" = .error (.activeSearchNotFound "42") := by
  exact (remove_active_search_actual_semantics [] [] "42").2.1 rfl

/-- Claim C6 counterexample: a lookup called with BOTH a search_id and a full
fingerprint raises nothing - in both backends the search_id branch simply
wins. The claim requires an invalid-query failure in this case. -/
theorem db_lookup_both_keys_no_error :
    DB.search_for_active_search [] (some "s1") (some "ip") (some "1.2.3.4") = .ok [] ∧
    Mongo.search_for_active_search [] (some "s1") (some "ip") (some "1.2.3.4") = .ok none := by
  exact ⟨rfl, rfl⟩

/-- Claim C6 amended: all four lookups fail with their invalid-query exception
exactly when no truthy search_id is supplied and the fingerprint is incomplete
under Python truthiness (a missing or empty field); when both keys are
supplied no error is raised and the search_id key takes precedence. -/
theorem lookup_invalid_query_actual (t1 : List ActiveRow) (t2 : List ResultRow)
    (c1 : List MongoActiveDoc) (c2 : List MongoResultDoc) (sid ty v : Option String) :
    ((DB.search_for_active_search t1 sid ty v = .error .invalidQuery) ↔
      (!truthy sid && (!truthy ty || !truthy v)) = true) ∧
    ((DB.search_for_results t2 sid ty v = .error .invalidQuery) ↔
      (!truthy sid && (!truthy ty || !truthy v)) = true) ∧
    ((Mongo.search_for_active_search c1 sid ty v = .error .invalidQuery) ↔
      (!truthy sid && (!truthy ty || !truthy v)) = true) ∧
    ((Mongo.search_for_results c2 sid ty v = .error .invalidQuery) ↔
      (!truthy sid && (!truthy ty || !truthy v)) = true) ∧
    (truthy sid = true →
      DB.search_for_active_search t1 sid ty v =
        .ok (t1.filter (fun r => r.search_id == sid.getD "")) ∧
      Mongo.search_for_active_search c1 sid ty v =
        .ok ((c1.filter (fun d => d.mongo_id == sid.getD "")).head?)) := by
  unfold DB.search_for_active_search DB.search_for_results
    Mongo.search_for_active_search Mongo.search_for_results
  cases hsid : truthy sid <;> cases hty : truthy ty <;> cases hv : truthy v <;>
    simp [hsid, hty, hv]

/-- Claim C6 amended, witness: both keys supplied on a one-row table - the
search_id branch is taken. -/
theorem lookup_invalid_query_actual_witness :
    DB.search_for_active_search [⟨"s1", "ip", "1.2.3.4"⟩] (some "s1") (some "ip")
      (some "1.2.3.4") = .ok [⟨"s1", "ip", "1.2.3.4"⟩] := by
  have h := (lookup_invalid_query_actual [⟨"s1", "ip", "1.2.3.4"⟩] [] [] []
    (some "s1") (some "ip") (some "1.2.3.4")).2.2.2.2 rfl
  exact h.1

/-- Claim C7 counterexample: on identical store contents - two completed
results for the same fingerprint - the relational backend answers the
fingerprint lookup with the two-element list of all matching records while the
document backend answers with a single document; the answers do not even have
the same shape, so the backends are not interchangeable. -/
theorem backend_answer_shapes_differ_cex :
    DB.search_for_results
      [⟨"s1", "ip", "1.2.3.4", "hit-one", 0⟩, ⟨"s2", "ip", "1.2.3.4", "hit-two", 0⟩]
      none (some "ip") (some "1.2.3.4") =
      .ok [⟨"s1", "ip", "1.2.3.4", "hit-one", 0⟩, ⟨"s2", "ip", "1.2.3.4", "hit-two", 0⟩] ∧
    Mongo.search_for_results
      [⟨"m1", "s1", "ip", "1.2.3.4", "hit-one"⟩, ⟨"m2", "s2", "ip", "1.2.3.4", "hit-two"⟩]
      none (some "ip") (some "1.2.3.4") =
      .ok (some ⟨"m1", "s1", "ip", "1.2.3.4", "hit-one"⟩) := by
  exact ⟨rfl, rfl⟩

/-- Claim C7 amended: for every fingerprint lookup the relational backend
returns the list of all matching records while the document backend returns at
most one record - the first matching document, or none - so the two answer
shapes differ and one backend cannot be substituted for the other without
orchestrator changes. -/
theorem backend_lookup_answer_shapes (table : List ResultRow) (coll : List MongoResultDoc)
    (ty v : String) (hty : ty ≠ "") (hv : v ≠ "") :
    DB.search_for_results table none (some ty) (some v) =
      .ok (table.filter (fun r => r.artifact_type == ty && r.artifact_value == v)) ∧
    Mongo.search_for_results coll none (some ty) (some v) =
      .ok ((coll.filter (fun d => d.artifact_value == v && d.artifact_type == ty)).head?) ∧
    (∀ ans, Mongo.search_for_results coll none (some ty) (some v) = .ok ans →
      ans.toList.length ≤ 1) := by
  have hty2 : truthy (some ty) = true := by simp [truthy, hty]
  have hv2 : truthy (some v) = true := by simp [truthy, hv]
  have hsid : truthy none = false := rfl
  unfold DB.search_for_results Mongo.search_for_results
  refine ⟨by simp [hty2, hv2, hsid], by simp [hty2, hv2, hsid], ?_⟩
  intro ans _
  cases ans <;> simp

/-- Claim C7 amended, witness: a single matching document. -/
theorem backend_lookup_answer_shapes_witness :
    Mongo.search_for_results [⟨"m1", "s1", "ip", "1.2.3.4", "hit-one"⟩] none (some "ip")
      (some "1.2.3.4") = .ok (some ⟨"m1", "s1", "ip", "1.2.3.4", "hit-one"⟩) := by
  have h := (backend_lookup_answer_shapes [] [⟨"m1", "s1", "ip", "1.2.3.4", "hit-one"⟩]
    "ip" "1.2.3.4" (by decide) (by decide)).2.1
  exact h

/-- Claim C8: the relational lookups interpolate the supplied value into the
SQL text with an f-string, so a value containing a quote character terminates
the quoted literal early. For the hostile id x OR 1=1 (with quotes inside),
the literal the engine reads from the generated query is just "x", which
differs from the supplied value; the engine-side result set then contains the
row whose search_id is "x", whereas the set of rows whose field equals the
supplied string is empty - matching is not exact string equality of the
supplied value, because the value travels inside the SQL text instead of as a
bound parameter. -/
theorem relational_lookup_interpolation_breakout :
    first_sql_literal (active_search_query_by_search_id "cts" hostile_search_id) = "x" ∧
    first_sql_literal (active_search_query_by_search_id "cts" hostile_search_id) ≠
      hostile_search_id ∧
    sql_by_id_result_set [⟨"x", "ip", "1.2.3.4"⟩]
      (active_search_query_by_search_id "cts" hostile_search_id) = [⟨"x", "ip", "1.2.3.4"⟩] ∧
    ([⟨"x", "ip", "1.2.3.4"⟩] : List ActiveRow).filter
      (fun r => r.search_id == hostile_search_id) = [] := by
  exact ⟨rfl, by decide, rfl, rfl⟩
